import Mathlib

/-!
Verification of the NES PPU register/memory model (`nes_ppu.h`).

The address translator, register file, OAM, and timing machine are
shallowly embedded; machine integers become `Nat` with explicit
wrap-around (`% 256`, `% 65536`) where the C++ `uint8_t`/`uint16_t`
arithmetic would overflow.
-/

set_option maxHeartbeats 1000000
set_option maxRecDepth 4096

namespace NesPpu

/-- Address translator from `nes_ppu.h` (`redirect_addr`): name-table
mirroring of `[0x3000, 0x3F00)` down by `0x1000`, and palette mirroring
every `0x20` bytes with the sprite-palette background entries collapsed
onto the background entries. -/
def redirect_addr (addr : Nat) : Nat :=
  if 0x3000 ≤ addr ∧ addr < 0x3f00 then
    addr - 0x1000
  else if addr &&& 0x3f00 = 0x3f00 then
    -- mirror of palette table every 0x20 bytes
    let addr := addr &&& 0x0ff1f
    -- mirror special case 0x3f10 = 0x3f00, 0x3f14 = 0x3f04, ...
    if addr &&& 0x10 = 0x10 then addr &&& 0x0ff0f else addr
  else addr

example : redirect_addr 0x3000 = 0x2000 := by decide
example : redirect_addr 0x3f10 = 0x3f00 := by decide
example : redirect_addr 0x3f35 = 0x3f05 := by decide
example : redirect_addr 0x2108 = 0x2108 := by decide
example : redirect_addr 0x4000 = 0x4000 := by decide

/-- An address whose `0x3F00`-masked bits are all set lies at or above
the palette region. -/
lemma palette_ge {a : Nat} (h : a &&& 0x3f00 = 0x3f00) : 0x3f00 ≤ a :=
  h ▸ Nat.and_le_left

/-- Addresses below the palette region never satisfy the palette
condition. -/
lemma not_palette_of_lt {a : Nat} (h : a < 0x3f00) :
    ¬ (a &&& 0x3f00 = 0x3f00) :=
  fun he => absurd (palette_ge he) (by omega)

/-- Addresses outside both mirrored regions pass through unchanged. -/
lemma redirect_addr_untouched {a : Nat}
    (h1 : ¬ (0x3000 ≤ a ∧ a < 0x3f00)) (h2 : ¬ (a &&& 0x3f00 = 0x3f00)) :
    redirect_addr a = a := by
  unfold redirect_addr
  rw [if_neg h1, if_neg h2]

/-- On the palette region, the translator reduces to the two masking
steps. -/
lemma redirect_addr_palette {a : Nat} (h : a &&& 0x3f00 = 0x3f00) :
    redirect_addr a =
      if a &&& 0x10 = 0x10 then a &&& 0x0ff0f else a &&& 0x0ff1f := by
  have hge : 0x3f00 ≤ a := palette_ge h
  have c1 : (0x0ff1f &&& 0x10 : Nat) = 0x10 := by decide
  have c2 : (0x0ff1f &&& 0x0ff0f : Nat) = 0x0ff0f := by decide
  unfold redirect_addr
  rw [if_neg (by omega), if_pos h]
  simp only [Nat.and_assoc, c1, c2]

/-- The translator never increases an address. -/
lemma redirect_addr_le (a : Nat) : redirect_addr a ≤ a := by
  unfold redirect_addr
  split
  · omega
  split
  · show (if (a &&& 0x0ff1f) &&& 0x10 = 0x10
        then (a &&& 0x0ff1f) &&& 0x0ff0f else a &&& 0x0ff1f) ≤ a
    split
    · exact le_trans Nat.and_le_left Nat.and_le_left
    · exact Nat.and_le_left
  · exact le_rfl

/-- The translator is idempotent. -/
lemma redirect_addr_idem (a : Nat) :
    redirect_addr (redirect_addr a) = redirect_addr a := by
  by_cases h1 : 0x3000 ≤ a ∧ a < 0x3f00
  · -- name-table mirror: result lands in [0x2000, 0x2F00)
    have hl : redirect_addr a = a - 0x1000 := by
      unfold redirect_addr; rw [if_pos h1]
    rw [hl]
    exact redirect_addr_untouched (by omega) (not_palette_of_lt (by omega))
  by_cases h2 : a &&& 0x3f00 = 0x3f00
  · -- palette region: the masks stabilise after one application
    rw [redirect_addr_palette h2]
    by_cases h3 : a &&& 0x10 = 0x10
    · rw [if_pos h3]
      have hp : (a &&& 0x0ff0f) &&& 0x3f00 = 0x3f00 := by
        rw [Nat.and_assoc, (by decide : (0x0ff0f &&& 0x3f00 : Nat) = 0x3f00), h2]
      rw [redirect_addr_palette hp]
      have hb : (a &&& 0x0ff0f) &&& 0x10 = 0 := by
        rw [Nat.and_assoc, (by decide : (0x0ff0f &&& 0x10 : Nat) = 0)]
        exact Nat.and_zero a
      rw [if_neg (by omega), Nat.and_assoc,
        (by decide : (0x0ff0f &&& 0x0ff1f : Nat) = 0x0ff0f)]
    · rw [if_neg h3]
      have hp : (a &&& 0x0ff1f) &&& 0x3f00 = 0x3f00 := by
        rw [Nat.and_assoc, (by decide : (0x0ff1f &&& 0x3f00 : Nat) = 0x3f00), h2]
      rw [redirect_addr_palette hp]
      have hb : (a &&& 0x0ff1f) &&& 0x10 = a &&& 0x10 := by
        rw [Nat.and_assoc, (by decide : (0x0ff1f &&& 0x10 : Nat) = 0x10)]
      rw [hb, if_neg h3, Nat.and_assoc, Nat.and_self]
  · rw [redirect_addr_untouched h1 h2, redirect_addr_untouched h1 h2]

/-- The register/memory state of the `nes_ppu` class: VRAM, OAM, the
derived PPUCTRL/PPUMASK fields, the status flags, the communication
latch, the shared write-toggle, the scroll and video-address registers,
the master cycle counter and the protection flag. -/
@[ext]
structure nes_ppu where
  vram : Nat → Nat
  oam : Nat → Nat
  name_tbl_addr : Nat
  pattern_tbl_addr : Nat
  ppu_addr_inc : Nat
  vblank_nmi : Bool
  use_8x16_sprite : Bool
  show_bg : Bool
  show_sprites : Bool
  gray_scale_mode : Bool
  latch : Nat
  sprite_overflow : Bool
  vblank_started : Bool
  sprite_0_hit : Bool
  oam_addr : Nat
  addr_latch : Nat
  scroll_x : Nat
  scroll_y : Nat
  ppu_addr : Nat
  master_cycle : Nat
  protect_register : Bool

/-- `read_byte`: translate, then read VRAM. -/
def read_byte (s : nes_ppu) (addr : Nat) : Nat :=
  s.vram (redirect_addr addr)

/-- `write_byte`: translate, then write VRAM. -/
def write_byte (s : nes_ppu) (addr val : Nat) : nes_ppu :=
  { s with vram := fun a => if a = redirect_addr addr then val else s.vram a }

/-- `is_ready`: the master cycle count has passed the warm-up
threshold. -/
def is_ready (s : nes_ppu) : Bool :=
  decide (29658 < s.master_cycle)

/-- `write_latch`: record a bus value unless protection is active. -/
def write_latch (s : nes_ppu) (val : Nat) : nes_ppu :=
  if s.protect_register then s else { s with latch := val }

/-- `read_latch`. -/
def read_latch (s : nes_ppu) : Nat :=
  s.latch

/-- `write_PPUCTRL`: ignored before readiness; otherwise updates the
latch and the five derived control fields. -/
def write_PPUCTRL (s : nes_ppu) (val : Nat) : nes_ppu :=
  if !is_ready s then s
  else
    let s := write_latch s val
    { s with
      name_tbl_addr := 0x2000 + (val &&& 0x3) * 0x400
      pattern_tbl_addr := (val &&& 0x10) <<< 0x8
      use_8x16_sprite := decide (val &&& 0x20 ≠ 0)
      ppu_addr_inc := if val &&& 0x4 ≠ 0 then 0x20 else 1
      vblank_nmi := decide (val &&& 0x80 ≠ 0) }

/-- `write_PPUMASK`: ignored before readiness; otherwise updates the
latch and the three derived mask fields. -/
def write_PPUMASK (s : nes_ppu) (val : Nat) : nes_ppu :=
  if !is_ready s then s
  else
    let s := write_latch s val
    { s with
      show_bg := decide (val &&& 0x8 ≠ 0)
      show_sprites := decide (val &&& 0x10 ≠ 0)
      gray_scale_mode := decide (val &&& 0x1 ≠ 0) }

/-- `read_PPUSTATUS`: assemble the status byte, clear the vblank flag
and the write toggle unless protected, and route the result through the
latch. Returns the value and the new state. -/
def read_PPUSTATUS (s : nes_ppu) : Nat × nes_ppu :=
  let status := s.latch &&& 0x1f
  let status := if s.sprite_0_hit then status ||| 0x40 else status
  let status := if s.sprite_overflow then status ||| 0x20 else status
  let status := if s.vblank_started then status ||| 0x80 else status
  let s2 := if !s.protect_register
    then { s with vblank_started := false, addr_latch := 0 } else s
  (status, write_latch s2 status)

/-- `write_OAMADDR`: not gated by readiness. -/
def write_OAMADDR (s : nes_ppu) (val : Nat) : nes_ppu :=
  let s := write_latch s val
  { s with oam_addr := val }

/-- `write_OAMDATA`: store at the OAM address, then increment it with
8-bit wrap-around. -/
def write_OAMDATA (s : nes_ppu) (val : Nat) : nes_ppu :=
  let s := write_latch s val
  { s with
    oam := fun i => if i = s.oam_addr then val else s.oam i
    oam_addr := (s.oam_addr + 1) % 256 }

/-- `read_OAMDATA`: read at the OAM address without advancing it. -/
def read_OAMDATA (s : nes_ppu) : Nat × nes_ppu :=
  let val := s.oam s.oam_addr
  (val, write_latch s val)

/-- `write_PPUSCROLL`: ignored before readiness; otherwise flips the
shared toggle and records X on the first write, Y on the second. -/
def write_PPUSCROLL (s : nes_ppu) (val : Nat) : nes_ppu :=
  if !is_ready s then s
  else
    let s := write_latch s val
    let al := (s.addr_latch + 1) % 2
    if al = 1 then { s with addr_latch := al, scroll_x := val }
    else { s with addr_latch := al, scroll_y := val }

/-- `write_PPUADDR`: not gated by readiness; flips the shared toggle
and sets the high byte on the first write, the low byte on the
second. The assignment truncates to 16 bits as the `uint16_t` field
does. -/
def write_PPUADDR (s : nes_ppu) (val : Nat) : nes_ppu :=
  let s := write_latch s val
  let al := (s.addr_latch + 1) % 2
  if al = 1 then
    { s with addr_latch := al
             ppu_addr := ((s.ppu_addr &&& 0x00ff) ||| (val <<< 8)) % 65536 }
  else
    { s with addr_latch := al
             ppu_addr := ((s.ppu_addr &&& 0xff00) ||| val) % 65536 }

/-- `write_PPUDATA`: store at the translated video address, then
advance it by the configured increment with 16-bit wrap-around. -/
def write_PPUDATA (s : nes_ppu) (val : Nat) : nes_ppu :=
  let s := write_latch s val
  let s := write_byte s s.ppu_addr val
  { s with ppu_addr := (s.ppu_addr + s.ppu_addr_inc) % 65536 }

/-- `read_PPUDATA`: read at the translated video address; advance the
address unless protected; route the value through the latch. -/
def read_PPUDATA (s : nes_ppu) : Nat × nes_ppu :=
  let val := read_byte s s.ppu_addr
  let s2 := if !s.protect_register
    then { s with ppu_addr := (s.ppu_addr + s.ppu_addr_inc) % 65536 } else s
  (val, write_latch s2 val)

/-- Modelled from the spec: the body of `oam_dma` is not under `src/`
(only its declaration appears in `nes_ppu.h`). Per the spec it copies
the 256 external-memory bytes starting at `addr` into OAM entries
0..255; the OAM address register is left unchanged, the hardware
behavior the spec recommends for its open question. -/
def oam_dma (extmem : Nat → Nat) (s : nes_ppu) (addr : Nat) : nes_ppu :=
  { s with oam := fun i => if i < 256 then extmem (addr + i) else s.oam i }

/-- `write_OAMDMA`: bulk copy from the external page selected by the
written byte. -/
def write_OAMDMA (extmem : Nat → Nat) (s : nes_ppu) (val : Nat) : nes_ppu :=
  oam_dma extmem s (val <<< 8)

set_option linter.unusedVariables false in
/-- `get_palette_color`, reproduced faithfully from the source: the
computed `palette_addr` is discarded and the universal backdrop entry
is read on every path. -/
def get_palette_color (s : nes_ppu) (is_background : Bool)
    (palette_index_4_bit : Nat) : Nat :=
  if palette_index_4_bit = 0 then read_byte s 0x3f00
  else
    let palette_addr :=
      (if is_background then 0x3f00 else 0x3f10) ||| palette_index_4_bit
    read_byte s 0x3f00

/-- Replace the master cycle counter, leaving the rest of the state
alone; used to express that an operation's effect does not depend on
readiness. -/
def with_master_cycle (s : nes_ppu) (m : Nat) : nes_ppu :=
  { s with master_cycle := m }

/-- A concrete power-on-like state used for witnesses: cleared memory
and registers, master cycle 0, protection off. -/
def ppu0 : nes_ppu :=
  { vram := fun _ => 0, oam := fun _ => 0, name_tbl_addr := 0x2000,
    pattern_tbl_addr := 0, ppu_addr_inc := 1, vblank_nmi := false,
    use_8x16_sprite := false, show_bg := false, show_sprites := false,
    gray_scale_mode := false, latch := 0, sprite_overflow := false,
    vblank_started := false, sprite_0_hit := false, oam_addr := 0,
    addr_latch := 0, scroll_x := 0, scroll_y := 0, ppu_addr := 0,
    master_cycle := 0, protect_register := false }

@[simp] lemma write_latch_vram (s : nes_ppu) (v : Nat) :
    (write_latch s v).vram = s.vram := by
  unfold write_latch; split <;> rfl

@[simp] lemma write_latch_oam (s : nes_ppu) (v : Nat) :
    (write_latch s v).oam = s.oam := by
  unfold write_latch; split <;> rfl

@[simp] lemma write_latch_oam_addr (s : nes_ppu) (v : Nat) :
    (write_latch s v).oam_addr = s.oam_addr := by
  unfold write_latch; split <;> rfl

@[simp] lemma write_latch_addr_latch (s : nes_ppu) (v : Nat) :
    (write_latch s v).addr_latch = s.addr_latch := by
  unfold write_latch; split <;> rfl

@[simp] lemma write_latch_ppu_addr (s : nes_ppu) (v : Nat) :
    (write_latch s v).ppu_addr = s.ppu_addr := by
  unfold write_latch; split <;> rfl

@[simp] lemma write_latch_ppu_addr_inc (s : nes_ppu) (v : Nat) :
    (write_latch s v).ppu_addr_inc = s.ppu_addr_inc := by
  unfold write_latch; split <;> rfl

@[simp] lemma write_latch_master_cycle (s : nes_ppu) (v : Nat) :
    (write_latch s v).master_cycle = s.master_cycle := by
  unfold write_latch; split <;> rfl

@[simp] lemma write_latch_protect (s : nes_ppu) (v : Nat) :
    (write_latch s v).protect_register = s.protect_register := by
  unfold write_latch; split <;> rfl

@[simp] lemma write_latch_vblank (s : nes_ppu) (v : Nat) :
    (write_latch s v).vblank_started = s.vblank_started := by
  unfold write_latch; split <;> rfl

@[simp] lemma write_latch_s0 (s : nes_ppu) (v : Nat) :
    (write_latch s v).sprite_0_hit = s.sprite_0_hit := by
  unfold write_latch; split <;> rfl

@[simp] lemma write_latch_ovf (s : nes_ppu) (v : Nat) :
    (write_latch s v).sprite_overflow = s.sprite_overflow := by
  unfold write_latch; split <;> rfl

/-- Claim C1: the address translator implements the two mirroring
equations: for `a` in `[0x3000, 0x3F00)` it agrees with `a - 0x1000`;
for `a` in the palette region it agrees with `a &&& 0xFF1F`, and when
bit 4 is additionally set, with `a &&& 0xFF0F`. -/
theorem claim_c1_mirroring (a : Nat) (ha : a < 0x10000) :
    (0x3000 ≤ a ∧ a < 0x3f00 →
      redirect_addr a = redirect_addr (a - 0x1000)) ∧
    (a &&& 0x3f00 = 0x3f00 →
      redirect_addr a = redirect_addr (a &&& 0x0ff1f) ∧
      (a &&& 0x10 = 0x10 →
        redirect_addr a = redirect_addr (a &&& 0x0ff0f))) := by
  constructor
  · rintro ⟨h1, h2⟩
    have hl : redirect_addr a = a - 0x1000 := by
      unfold redirect_addr; rw [if_pos ⟨h1, h2⟩]
    rw [hl, redirect_addr_untouched (by omega) (not_palette_of_lt (by omega))]
  · intro hp
    have hp1 : (a &&& 0x0ff1f) &&& 0x3f00 = 0x3f00 := by
      rw [Nat.and_assoc, (by decide : (0x0ff1f &&& 0x3f00 : Nat) = 0x3f00), hp]
    have hp0 : (a &&& 0x0ff0f) &&& 0x3f00 = 0x3f00 := by
      rw [Nat.and_assoc, (by decide : (0x0ff0f &&& 0x3f00 : Nat) = 0x3f00), hp]
    have e1 : (a &&& 0x0ff1f) &&& 0x10 = a &&& 0x10 := by
      rw [Nat.and_assoc, (by decide : (0x0ff1f &&& 0x10 : Nat) = 0x10)]
    have e2 : (a &&& 0x0ff1f) &&& 0x0ff0f = a &&& 0x0ff0f := by
      rw [Nat.and_assoc, (by decide : (0x0ff1f &&& 0x0ff0f : Nat) = 0x0ff0f)]
    have e3 : (a &&& 0x0ff1f) &&& 0x0ff1f = a &&& 0x0ff1f := by
      rw [Nat.and_assoc, Nat.and_self]
    constructor
    · rw [redirect_addr_palette hp, redirect_addr_palette hp1, e1, e2, e3]
    · intro h10
      have e0 : (a &&& 0x0ff0f) &&& 0x10 = 0 := by
        rw [Nat.and_assoc, (by decide : (0x0ff0f &&& 0x10 : Nat) = 0),
          Nat.and_zero]
      rw [redirect_addr_palette hp, redirect_addr_palette hp0, if_pos h10,
        if_neg (by omega), Nat.and_assoc,
        (by decide : (0x0ff0f &&& 0x0ff1f : Nat) = 0x0ff0f)]

/-- Witness for C1, at a name-table mirror address and at a
sprite-palette background entry. -/
theorem claim_c1_mirroring_witness :
    redirect_addr 0x3515 = redirect_addr (0x3515 - 0x1000) ∧
    redirect_addr 0x3f1c = redirect_addr (0x3f1c &&& 0x0ff0f) :=
  ⟨(claim_c1_mirroring 0x3515 (by decide)).1 (by decide),
    ((claim_c1_mirroring 0x3f1c (by decide)).2 (by decide)).2 (by decide)⟩

/-- Counterexample to C2 as stated: the 16-bit address `0x4000` is
passed through untranslated, so it is not mapped strictly below
`0x4000` and would index the 16KB VRAM array out of bounds. -/
theorem claim_c2_counterexample :
    redirect_addr 0x4000 = 0x4000 ∧ ¬ redirect_addr 0x4000 < 0x4000 := by
  decide

/-- Claim C2 (amended): for every address in the PPU's documented 14-bit
address space (below `0x4000`), the translator produces exactly one
index strictly below `0x4000`, so `read_byte`/`write_byte` stay inside
the 16KB VRAM array for such addresses. -/
theorem claim_c2_in_range (a : Nat) (ha : a < 0x4000) :
    redirect_addr a < 0x4000 :=
  lt_of_le_of_lt (redirect_addr_le a) ha

/-- Witness for C2 (amended). -/
theorem claim_c2_in_range_witness : redirect_addr 0x3f10 < 0x4000 :=
  claim_c2_in_range 0x3f10 (by decide)

/-- Claim C10: translation is idempotent, so reading or writing an
already-translated address touches the same physical location as the
original address. -/
theorem claim_c10_idempotent (s : nes_ppu) (v a : Nat) (_ha : a < 0x10000) :
    redirect_addr (redirect_addr a) = redirect_addr a ∧
    read_byte s (redirect_addr a) = read_byte s a ∧
    write_byte s (redirect_addr a) v = write_byte s a v := by
  refine ⟨redirect_addr_idem a, ?_, ?_⟩
  · unfold read_byte; rw [redirect_addr_idem]
  · unfold write_byte; rw [redirect_addr_idem]

/-- Witness for C10. -/
theorem claim_c10_idempotent_witness :
    redirect_addr (redirect_addr 0x3f10) = redirect_addr 0x3f10 :=
  (claim_c10_idempotent ppu0 0 0x3f10 (by decide)).1

/-- `write_OAMADDR` never reads the master cycle counter. -/
lemma mc_irrel_OAMADDR (s : nes_ppu) (v m : Nat) :
    write_OAMADDR (with_master_cycle s m) v
      = with_master_cycle (write_OAMADDR s v) m := by
  obtain ⟨vr, om, nta, pta, inc, vn, u8, sb, ss, gs, lt, ov, vb, s0h, oa,
    al, sx, sy, pa, mc, pr⟩ := s
  cases pr <;> rfl

/-- `write_OAMDATA` never reads the master cycle counter. -/
lemma mc_irrel_OAMDATA (s : nes_ppu) (v m : Nat) :
    write_OAMDATA (with_master_cycle s m) v
      = with_master_cycle (write_OAMDATA s v) m := by
  obtain ⟨vr, om, nta, pta, inc, vn, u8, sb, ss, gs, lt, ov, vb, s0h, oa,
    al, sx, sy, pa, mc, pr⟩ := s
  cases pr <;> rfl

/-- `write_PPUADDR` never reads the master cycle counter. -/
lemma mc_irrel_PPUADDR (s : nes_ppu) (v m : Nat) :
    write_PPUADDR (with_master_cycle s m) v
      = with_master_cycle (write_PPUADDR s v) m := by
  obtain ⟨vr, om, nta, pta, inc, vn, u8, sb, ss, gs, lt, ov, vb, s0h, oa,
    al, sx, sy, pa, mc, pr⟩ := s
  cases pr <;> (unfold write_PPUADDR with_master_cycle write_latch
                dsimp only
                split_ifs <;> rfl)

/-- `write_PPUDATA` never reads the master cycle counter. -/
lemma mc_irrel_PPUDATA (s : nes_ppu) (v m : Nat) :
    write_PPUDATA (with_master_cycle s m) v
      = with_master_cycle (write_PPUDATA s v) m := by
  obtain ⟨vr, om, nta, pta, inc, vn, u8, sb, ss, gs, lt, ov, vb, s0h, oa,
    al, sx, sy, pa, mc, pr⟩ := s
  cases pr <;> rfl

/-- `write_OAMDMA` never reads the master cycle counter. -/
lemma mc_irrel_OAMDMA (em : Nat → Nat) (s : nes_ppu) (v m : Nat) :
    write_OAMDMA em (with_master_cycle s m) v
      = with_master_cycle (write_OAMDMA em s v) m := by
  obtain ⟨vr, om, nta, pta, inc, vn, u8, sb, ss, gs, lt, ov, vb, s0h, oa,
    al, sx, sy, pa, mc, pr⟩ := s
  rfl

/-- Claim C3: with the master cycle at most 29658 the PPU is not ready,
so CTRL/MASK/SCROLL writes leave the whole state unchanged, while the
OAMADDR/OAMDATA/ADDR/DATA/OAMDMA writes act identically at every
master-cycle value (their full normal effect, regardless of
readiness). The OAMDMA body is modelled from the spec. -/
theorem claim_c3_warmup_gating (s : nes_ppu) (v : Nat) (em : Nat → Nat)
    (h : s.master_cycle ≤ 29658) :
    write_PPUCTRL s v = s ∧
    write_PPUMASK s v = s ∧
    write_PPUSCROLL s v = s ∧
    (∀ m, write_OAMADDR (with_master_cycle s m) v
        = with_master_cycle (write_OAMADDR s v) m) ∧
    (∀ m, write_OAMDATA (with_master_cycle s m) v
        = with_master_cycle (write_OAMDATA s v) m) ∧
    (∀ m, write_PPUADDR (with_master_cycle s m) v
        = with_master_cycle (write_PPUADDR s v) m) ∧
    (∀ m, write_PPUDATA (with_master_cycle s m) v
        = with_master_cycle (write_PPUDATA s v) m) ∧
    (∀ m, write_OAMDMA em (with_master_cycle s m) v
        = with_master_cycle (write_OAMDMA em s v) m) := by
  have hr : is_ready s = false := by
    unfold is_ready
    simp only [decide_eq_false_iff_not]
    omega
  refine ⟨?_, ?_, ?_, fun m => mc_irrel_OAMADDR s v m,
    fun m => mc_irrel_OAMDATA s v m, fun m => mc_irrel_PPUADDR s v m,
    fun m => mc_irrel_PPUDATA s v m, fun m => mc_irrel_OAMDMA em s v m⟩
  · unfold write_PPUCTRL; rw [hr]; rfl
  · unfold write_PPUMASK; rw [hr]; rfl
  · unfold write_PPUSCROLL; rw [hr]; rfl

/-- Witness for C3: at power-on (cycle 0) a CTRL write is a no-op. -/
theorem claim_c3_warmup_gating_witness : write_PPUCTRL ppu0 0xff = ppu0 :=
  (claim_c3_warmup_gating ppu0 0xff (fun _ => 0) (by decide)).1

/-- Claim C4 (amended): the status byte is the latch's low five bits
combined with the sprite-0-hit (0x40), sprite-overflow (0x20) and
vblank (0x80) flags; with protection disabled the value is written back
into the latch, the vblank flag is cleared and the shared write-toggle
reset to 0; with protection enabled the state (latch, vblank flag,
write-toggle) is left entirely unchanged; the sprite flags are never
changed by a status read. -/
theorem claim_c4_status_read (s : nes_ppu) :
    (read_PPUSTATUS s).1 =
      ((s.latch &&& 0x1f) ||| (if s.sprite_0_hit then 0x40 else 0)
        ||| (if s.sprite_overflow then 0x20 else 0)
        ||| (if s.vblank_started then 0x80 else 0)) ∧
    (s.protect_register = false →
      (read_PPUSTATUS s).2.latch = (read_PPUSTATUS s).1 ∧
      (read_PPUSTATUS s).2.vblank_started = false ∧
      (read_PPUSTATUS s).2.addr_latch = 0) ∧
    (s.protect_register = true → (read_PPUSTATUS s).2 = s) ∧
    (read_PPUSTATUS s).2.sprite_0_hit = s.sprite_0_hit ∧
    (read_PPUSTATUS s).2.sprite_overflow = s.sprite_overflow := by
  cases h0 : s.sprite_0_hit <;> cases hov : s.sprite_overflow <;>
    cases hv : s.vblank_started <;> cases hp : s.protect_register <;>
    simp [read_PPUSTATUS, write_latch, h0, hov, hv, hp, Nat.or_zero]

/-- Witness for C4 (amended): an unprotected read resets the shared
write-toggle. -/
theorem claim_c4_status_read_witness :
    (read_PPUSTATUS ppu0).2.addr_latch = 0 :=
  ((claim_c4_status_read ppu0).2.1 rfl).2.2

/-- A protected state whose latch low bits disagree with the assembled
status byte. -/
def ppu_protected : nes_ppu :=
  { ppu0 with
    protect_register := true
    latch := 0xff
    vblank_started := true
    addr_latch := 1 }

/-- Counterexample to C4 as stated: with protection enabled the
returned status byte (0x9F) is not written back into the communication
latch (which stays 0xFF), so the write-back does not happen in every
call. -/
theorem claim_c4_counterexample :
    (read_PPUSTATUS ppu_protected).1 = 0x9f ∧
    (read_PPUSTATUS ppu_protected).2.latch = 0xff ∧
    (read_PPUSTATUS ppu_protected).2.latch ≠ (read_PPUSTATUS ppu_protected).1 := by
  decide

@[simp] lemma write_byte_addr_latch (s : nes_ppu) (a v : Nat) :
    (write_byte s a v).addr_latch = s.addr_latch := rfl

@[simp] lemma write_byte_ppu_addr (s : nes_ppu) (a v : Nat) :
    (write_byte s a v).ppu_addr = s.ppu_addr := rfl

@[simp] lemma write_byte_ppu_addr_inc (s : nes_ppu) (a v : Nat) :
    (write_byte s a v).ppu_addr_inc = s.ppu_addr_inc := rfl

/-- A byte or-ed into the cleared low byte of `0x2100` is an
addition. -/
lemma or_2100_eq : ∀ l : Nat, l < 256 → l ||| 0x2100 = 0x2100 + l := by
  decide

/-- Masking the high byte of `0x2100 + low` recovers `0x2100`. -/
lemma and_ff00_2100 : ∀ l : Nat, l < 256 → (0x2100 + l) &&& 0xff00 = 0x2100 := by
  decide

/-- An effective CTRL write at a ready PPU configures the increment and
leaves the video-address machinery alone. -/
lemma write_PPUCTRL_ready_fields (s : nes_ppu) (c : Nat)
    (hr : is_ready s = true) :
    (write_PPUCTRL s c).ppu_addr_inc = (if c &&& 0x4 = 0 then 1 else 32) ∧
    (write_PPUCTRL s c).addr_latch = s.addr_latch ∧
    (write_PPUCTRL s c).ppu_addr = s.ppu_addr := by
  unfold write_PPUCTRL
  rw [hr]
  by_cases hc : c &&& 0x4 = 0 <;>
    simp [write_latch_addr_latch, write_latch_ppu_addr, hc]

/-- First ADDR write (toggle 0): sets the high byte. -/
lemma write_PPUADDR_first_fields (s : nes_ppu) (v : Nat)
    (h : s.addr_latch = 0) :
    (write_PPUADDR s v).addr_latch = 1 ∧
    (write_PPUADDR s v).ppu_addr
      = ((s.ppu_addr &&& 0x00ff) ||| (v <<< 8)) % 65536 ∧
    (write_PPUADDR s v).ppu_addr_inc = s.ppu_addr_inc ∧
    (write_PPUADDR s v).vram = s.vram := by
  unfold write_PPUADDR
  simp [write_latch_addr_latch, write_latch_ppu_addr,
    write_latch_ppu_addr_inc, write_latch_vram, h]

/-- Second ADDR write (toggle 1): sets the low byte. -/
lemma write_PPUADDR_second_fields (s : nes_ppu) (v : Nat)
    (h : s.addr_latch = 1) :
    (write_PPUADDR s v).addr_latch = 0 ∧
    (write_PPUADDR s v).ppu_addr
      = ((s.ppu_addr &&& 0xff00) ||| v) % 65536 ∧
    (write_PPUADDR s v).ppu_addr_inc = s.ppu_addr_inc ∧
    (write_PPUADDR s v).vram = s.vram := by
  unfold write_PPUADDR
  simp [write_latch_addr_latch, write_latch_ppu_addr,
    write_latch_ppu_addr_inc, write_latch_vram, h]

/-- A DATA write stores at the translated current video address and
advances it by the configured increment. -/
lemma write_PPUDATA_fields (s : nes_ppu) (v : Nat) :
    read_byte (write_PPUDATA s v) s.ppu_addr = v ∧
    (write_PPUDATA s v).ppu_addr
      = (s.ppu_addr + s.ppu_addr_inc) % 65536 := by
  unfold write_PPUDATA write_byte read_byte
  constructor
  · simp [write_latch_vram, write_latch_ppu_addr]
  · simp [write_latch_ppu_addr, write_latch_ppu_addr_inc]

/-- A ready state used for witnesses of the register sequences. -/
def ppu_ready : nes_ppu :=
  { ppu0 with master_cycle := 30000 }

/-- Claim C5: from toggle 0, `write_PPUADDR 0x21` then `write_PPUADDR
0x08` leaves the video address at 0x2108 (high byte first, low byte
second, each preserving the other half), and a following
`write_PPUDATA v` stores `v` at the translated 0x2108 and advances the
address by the increment configured by the last effective CTRL write
(1 if bit 2 clear, 32 if set). -/
theorem claim_c5_addr_data (s0 : nes_ppu) (c v : Nat)
    (hr : is_ready s0 = true) (hl : s0.addr_latch = 0) :
    (write_PPUCTRL s0 c).ppu_addr_inc = (if c &&& 0x4 = 0 then 1 else 32) ∧
    (write_PPUADDR (write_PPUCTRL s0 c) 0x21).ppu_addr
      = 0x2100 + ((write_PPUCTRL s0 c).ppu_addr &&& 0x00ff) ∧
    (write_PPUADDR (write_PPUADDR (write_PPUCTRL s0 c) 0x21) 0x08).ppu_addr
      = 0x2108 ∧
    read_byte
      (write_PPUDATA
        (write_PPUADDR (write_PPUADDR (write_PPUCTRL s0 c) 0x21) 0x08) v)
      0x2108 = v ∧
    (write_PPUDATA
        (write_PPUADDR (write_PPUADDR (write_PPUCTRL s0 c) 0x21) 0x08)
        v).ppu_addr
      = 0x2108 + (if c &&& 0x4 = 0 then 1 else 32) := by
  obtain ⟨hinc, hal, hpa⟩ := write_PPUCTRL_ready_fields s0 c hr
  set s := write_PPUCTRL s0 c with hs
  have hal0 : s.addr_latch = 0 := by rw [hal, hl]
  obtain ⟨a1al, a1pa, a1inc, a1vr⟩ := write_PPUADDR_first_fields s 0x21 hal0
  set s1 := write_PPUADDR s 0x21 with hs1
  have hlow : s.ppu_addr &&& 0x00ff < 256 :=
    lt_of_le_of_lt Nat.and_le_right (by norm_num)
  have e1 : s1.ppu_addr = 0x2100 + (s.ppu_addr &&& 0x00ff) := by
    rw [a1pa, (by decide : (0x21 <<< 8 : Nat) = 0x2100),
      or_2100_eq _ hlow, Nat.mod_eq_of_lt (by omega)]
  obtain ⟨a2al, a2pa, a2inc, a2vr⟩ :=
    write_PPUADDR_second_fields s1 0x08 a1al
  set s2 := write_PPUADDR s1 0x08 with hs2
  have e2 : s2.ppu_addr = 0x2108 := by
    rw [a2pa, e1, and_ff00_2100 _ hlow]
    decide
  obtain ⟨d1, d2⟩ := write_PPUDATA_fields s2 v
  refine ⟨hinc, e1, e2, ?_, ?_⟩
  · rw [← e2]; exact d1
  · rw [d2, e2, a2inc, a1inc, hinc]
    by_cases hc : c &&& 0x4 = 0 <;> simp [hc]

/-- Witness for C5: the two ADDR writes land the video address at
0x2108 on a concrete ready state. -/
theorem claim_c5_addr_data_witness :
    (write_PPUADDR (write_PPUADDR (write_PPUCTRL ppu_ready 4) 0x21)
      0x08).ppu_addr = 0x2108 :=
  (claim_c5_addr_data ppu_ready 4 7 (by decide) (by decide)).2.2.1

lemma addr_latch_PPUCTRL (s : nes_ppu) (v : Nat) :
    (write_PPUCTRL s v).addr_latch = s.addr_latch := by
  unfold write_PPUCTRL
  split <;> simp [write_latch_addr_latch]

lemma addr_latch_PPUMASK (s : nes_ppu) (v : Nat) :
    (write_PPUMASK s v).addr_latch = s.addr_latch := by
  unfold write_PPUMASK
  split <;> simp [write_latch_addr_latch]

lemma addr_latch_OAMADDR (s : nes_ppu) (v : Nat) :
    (write_OAMADDR s v).addr_latch = s.addr_latch := by
  unfold write_OAMADDR
  simp [write_latch_addr_latch]

lemma addr_latch_OAMDATA (s : nes_ppu) (v : Nat) :
    (write_OAMDATA s v).addr_latch = s.addr_latch := by
  unfold write_OAMDATA
  simp [write_latch_addr_latch]

lemma addr_latch_read_OAMDATA (s : nes_ppu) :
    (read_OAMDATA s).2.addr_latch = s.addr_latch := by
  unfold read_OAMDATA
  simp [write_latch_addr_latch]

lemma addr_latch_SCROLL_ready (s : nes_ppu) (v : Nat)
    (hr : is_ready s = true) :
    (write_PPUSCROLL s v).addr_latch = (s.addr_latch + 1) % 2 := by
  unfold write_PPUSCROLL
  rw [hr]
  simp [apply_ite nes_ppu.addr_latch, write_latch_addr_latch]

lemma addr_latch_SCROLL_not_ready (s : nes_ppu) (v : Nat)
    (hr : is_ready s = false) :
    (write_PPUSCROLL s v).addr_latch = s.addr_latch := by
  unfold write_PPUSCROLL
  rw [hr]
  simp

lemma addr_latch_PPUADDR (s : nes_ppu) (v : Nat) :
    (write_PPUADDR s v).addr_latch = (s.addr_latch + 1) % 2 := by
  unfold write_PPUADDR
  simp [apply_ite nes_ppu.addr_latch, write_latch_addr_latch]

lemma addr_latch_PPUDATA (s : nes_ppu) (v : Nat) :
    (write_PPUDATA s v).addr_latch = s.addr_latch := by
  unfold write_PPUDATA
  simp [write_latch_addr_latch]

lemma addr_latch_read_PPUDATA (s : nes_ppu) :
    (read_PPUDATA s).2.addr_latch = s.addr_latch := by
  unfold read_PPUDATA
  split <;> simp [write_latch_addr_latch]

lemma addr_latch_STATUS (s : nes_ppu) :
    (read_PPUSTATUS s).2.addr_latch
      = (if s.protect_register then s.addr_latch else 0) := by
  unfold read_PPUSTATUS
  cases hp : s.protect_register <;> simp [write_latch_addr_latch, hp]

lemma addr_latch_OAMDMA (em : Nat → Nat) (s : nes_ppu) (v : Nat) :
    (write_OAMDMA em s v).addr_latch = s.addr_latch := rfl

/-- Claim C6 (amended): the shared write-toggle stays in {0, 1} under
every register operation; ADDR writes always flip it, and SCROLL writes
flip the same toggle exactly when the PPU is ready (before readiness
SCROLL writes are no-ops on it); an unprotected status read resets
it to 0. -/
theorem claim_c6_toggle (s : nes_ppu) (v : Nat) (em : Nat → Nat)
    (h : s.addr_latch < 2) :
    (write_PPUADDR s v).addr_latch = (s.addr_latch + 1) % 2 ∧
    (is_ready s = true →
      (write_PPUSCROLL s v).addr_latch = (s.addr_latch + 1) % 2) ∧
    (is_ready s = false →
      (write_PPUSCROLL s v).addr_latch = s.addr_latch) ∧
    (read_PPUSTATUS s).2.addr_latch
      = (if s.protect_register then s.addr_latch else 0) ∧
    (write_PPUCTRL s v).addr_latch < 2 ∧
    (write_PPUMASK s v).addr_latch < 2 ∧
    (read_PPUSTATUS s).2.addr_latch < 2 ∧
    (write_OAMADDR s v).addr_latch < 2 ∧
    (write_OAMDATA s v).addr_latch < 2 ∧
    (read_OAMDATA s).2.addr_latch < 2 ∧
    (write_PPUSCROLL s v).addr_latch < 2 ∧
    (write_PPUADDR s v).addr_latch < 2 ∧
    (write_PPUDATA s v).addr_latch < 2 ∧
    (read_PPUDATA s).2.addr_latch < 2 ∧
    (write_OAMDMA em s v).addr_latch < 2 := by
  refine ⟨addr_latch_PPUADDR s v, addr_latch_SCROLL_ready s v,
    addr_latch_SCROLL_not_ready s v, addr_latch_STATUS s,
    ?_, ?_, ?_, ?_, ?_, ?_, ?_, ?_, ?_, ?_, ?_⟩
  · rw [addr_latch_PPUCTRL]; omega
  · rw [addr_latch_PPUMASK]; omega
  · rw [addr_latch_STATUS]; split <;> omega
  · rw [addr_latch_OAMADDR]; omega
  · rw [addr_latch_OAMDATA]; omega
  · rw [addr_latch_read_OAMDATA]; omega
  · cases hr : is_ready s
    · rw [addr_latch_SCROLL_not_ready s v hr]; omega
    · rw [addr_latch_SCROLL_ready s v hr]; omega
  · rw [addr_latch_PPUADDR]; omega
  · rw [addr_latch_PPUDATA]; omega
  · rw [addr_latch_read_PPUDATA]; omega
  · rw [addr_latch_OAMDMA]; omega

/-- Counterexample to C6 as stated: at power-on (not ready) a SCROLL
write leaves the toggle unchanged instead of flipping it. -/
theorem claim_c6_counterexample :
    (write_PPUSCROLL ppu0 5).addr_latch = ppu0.addr_latch ∧
    ppu0.addr_latch ≠ (ppu0.addr_latch + 1) % 2 := by
  decide

/-- Witness for C6 (amended): an ADDR write on a concrete state flips
the toggle. -/
theorem claim_c6_toggle_witness :
    (write_PPUADDR ppu0 3).addr_latch = (ppu0.addr_latch + 1) % 2 :=
  (claim_c6_toggle ppu0 3 (fun _ => 0) (by decide)).1

/-- One `write_OAMDATA` advances the OAM address by one, modulo 256. -/
lemma oam_addr_OAMDATA (s : nes_ppu) (v : Nat) :
    (write_OAMDATA s v).oam_addr = (s.oam_addr + 1) % 256 := by
  unfold write_OAMDATA
  simp [write_latch_oam_addr]

/-- Folding `write_OAMDATA` over a list advances the OAM address by the
list length, modulo 256. -/
lemma foldl_OAMDATA_oam_addr (vs : List Nat) :
    ∀ s : nes_ppu, s.oam_addr < 256 →
      (vs.foldl write_OAMDATA s).oam_addr = (s.oam_addr + vs.length) % 256 := by
  induction vs with
  | nil =>
    intro s h
    simpa using (Nat.mod_eq_of_lt h).symm
  | cons v vs ih =>
    intro s h
    rw [List.foldl_cons, ih _ (by rw [oam_addr_OAMDATA]; omega),
      oam_addr_OAMDATA, Nat.mod_add_mod, List.length_cons]
    congr 1
    omega

/-- Claim C7: OAMDATA writes store at the OAM address and advance it
modulo 256, OAMDATA reads return the byte there without advancing, and
any 256 consecutive OAMDATA writes return the OAM address to its
starting value. -/
theorem claim_c7_oam (s : nes_ppu) (v : Nat) (h : s.oam_addr < 256) :
    (write_OAMDATA s v).oam s.oam_addr = v ∧
    (write_OAMDATA s v).oam_addr = (s.oam_addr + 1) % 256 ∧
    (read_OAMDATA s).1 = s.oam s.oam_addr ∧
    (read_OAMDATA s).2.oam_addr = s.oam_addr ∧
    (∀ vs : List Nat, vs.length = 256 →
      (vs.foldl write_OAMDATA s).oam_addr = s.oam_addr) := by
  refine ⟨?_, oam_addr_OAMDATA s v, rfl, ?_, ?_⟩
  · unfold write_OAMDATA
    simp [write_latch_oam, write_latch_oam_addr]
  · unfold read_OAMDATA
    simp [write_latch_oam_addr]
  · intro vs hlen
    rw [foldl_OAMDATA_oam_addr vs s h, hlen, Nat.add_mod_right,
      Nat.mod_eq_of_lt h]

/-- Witness for C7: 256 OAMDATA writes of zero bring the OAM address
back to its start. -/
theorem claim_c7_oam_witness :
    ((List.replicate 256 0).foldl write_OAMDATA ppu0).oam_addr
      = ppu0.oam_addr :=
  (claim_c7_oam ppu0 0 (by decide)).2.2.2.2 (List.replicate 256 0)
    (by simp)

/-- A state whose backdrop entry (0x3F00) holds 3 while every other
VRAM byte holds 7. -/
def ppu_pal : nes_ppu :=
  { ppu0 with vram := fun a => if a = 0x3f00 then 3 else 7 }

/-- Claim C8 evaluated on the code at the failing inputs: for non-zero
palette indices `get_palette_color` still returns the backdrop byte
(3), while the selected sub-palette entries (sprite 0x3F10|1 mirrored
to 0x3F01; background 0x3F00|5) hold 7, the value the claim says should
be returned. -/
theorem claim_c8_divergence :
    get_palette_color ppu_pal false 1 = 3 ∧
    get_palette_color ppu_pal true 5 = 3 ∧
    read_byte ppu_pal (0x3f10 ||| 1) = 7 ∧
    read_byte ppu_pal (0x3f00 ||| 5) = 7 := by
  decide

/-- The timing-relevant slice of the PPU state: scanline/dot counters,
the three status flags, the NMI-enable bit and the NMI request raised
towards the CPU during the latest step. -/
structure ppu_timing where
  cur_scanline : Nat
  scanline_cycle : Nat
  vblank_started : Bool
  sprite_0_hit : Bool
  sprite_overflow : Bool
  vblank_nmi : Bool
  nmi_signalled : Bool
  deriving DecidableEq

/-- Modelled from the spec: the bodies of `step_to`/`step_ppu` are not
under `src/` (only their declarations appear in `nes_ppu.h`). Per the
spec and the header's constants and comments, one PPU dot advances the
dot counter through 341-dot scanlines and 262-scanline frames; at dot 1
of scanline 241 the vblank flag is set and an NMI is signalled iff
vblank-NMI is enabled; at dot 1 of the pre-render line (scanline 261)
the vblank, sprite-0-hit and sprite-overflow flags are cleared. -/
def step_ppu (s : ppu_timing) : ppu_timing :=
  let d := if s.scanline_cycle + 1 = 341 then 0 else s.scanline_cycle + 1
  let sl := if s.scanline_cycle + 1 = 341 then
      (if s.cur_scanline + 1 = 262 then 0 else s.cur_scanline + 1)
    else s.cur_scanline
  { cur_scanline := sl
    scanline_cycle := d
    vblank_started :=
      if sl = 241 ∧ d = 1 then true
      else if sl = 261 ∧ d = 1 then false
      else s.vblank_started
    sprite_0_hit := if sl = 261 ∧ d = 1 then false else s.sprite_0_hit
    sprite_overflow := if sl = 261 ∧ d = 1 then false else s.sprite_overflow
    vblank_nmi := s.vblank_nmi
    nmi_signalled := if sl = 241 ∧ d = 1 then s.vblank_nmi else false }

/-- Run the stepping entry point for a given number of PPU dots. -/
def run_ppu (s : ppu_timing) : Nat → ppu_timing
  | 0 => s
  | k + 1 => step_ppu (run_ppu s k)

/-- The state at the start of a frame (scanline 0, dot 0): vblank was
cleared at the previous pre-render line; the sprite flags are taken as
set so their single falling edge is observable. -/
def frame_start (b : Bool) : ppu_timing :=
  { cur_scanline := 0, scanline_cycle := 0, vblank_started := false,
    sprite_0_hit := true, sprite_overflow := true, vblank_nmi := b,
    nmi_signalled := false }

/-- Closed form of the trace from `frame_start` for the first full
frame (dot counts up to 262 × 341 = 89342). -/
def timing_at (b : Bool) (k : Nat) : ppu_timing :=
  { cur_scanline := k % 89342 / 341
    scanline_cycle := k % 341
    vblank_started := if 82182 ≤ k ∧ k < 89002 then true else false
    sprite_0_hit := if k < 89002 then true else false
    sprite_overflow := if k < 89002 then true else false
    vblank_nmi := b
    nmi_signalled := if k = 82182 then b else false }

lemma step_timing_at (b : Bool) (k : Nat) (hk : k < 89342) :
    step_ppu (timing_at b k) = timing_at b (k + 1) := by
  unfold step_ppu timing_at
  dsimp only
  rw [ppu_timing.mk.injEq]
  refine ⟨?_, ?_, ?_, ?_, ?_, rfl, ?_⟩ <;>
    split_ifs <;> first | rfl | omega | simp_all

lemma run_ppu_closed (b : Bool) :
    ∀ k, k ≤ 89342 → run_ppu (frame_start b) k = timing_at b k := by
  intro k
  induction k with
  | zero => intro _; cases b <;> rfl
  | succ k ih =>
    intro hk
    have h1 : run_ppu (frame_start b) (k + 1)
        = step_ppu (run_ppu (frame_start b) k) := rfl
    rw [h1, ih (by omega), step_timing_at b k (by omega)]

/-- Claim C9: across one full frame advance (262 scanlines of 341 dots)
from the frame start, the vblank flag has exactly one rising edge, at
the step reaching dot 1 of scanline 241 (dot count 82182), with an NMI
signalled there iff vblank-NMI is enabled and at no other step; and
vblank, sprite-0-hit and sprite-overflow each have exactly one falling
edge, at the step reaching dot 1 of the pre-render line 261 (dot count
89002). The stepping machine is modelled from the spec. -/
theorem claim_c9_frame_edges (b : Bool) :
    ((run_ppu (frame_start b) 82182).cur_scanline = 241 ∧
      (run_ppu (frame_start b) 82182).scanline_cycle = 1) ∧
    ((run_ppu (frame_start b) 89002).cur_scanline = 261 ∧
      (run_ppu (frame_start b) 89002).scanline_cycle = 1) ∧
    (∀ k, 1 ≤ k → k ≤ 89342 →
      (((run_ppu (frame_start b) k).vblank_started = true ∧
        (run_ppu (frame_start b) (k - 1)).vblank_started = false)
        ↔ k = 82182)) ∧
    (∀ k, 1 ≤ k → k ≤ 89342 →
      (((run_ppu (frame_start b) k).vblank_started = false ∧
        (run_ppu (frame_start b) (k - 1)).vblank_started = true)
        ↔ k = 89002)) ∧
    (∀ k, 1 ≤ k → k ≤ 89342 →
      (((run_ppu (frame_start b) k).sprite_0_hit = false ∧
        (run_ppu (frame_start b) (k - 1)).sprite_0_hit = true)
        ↔ k = 89002)) ∧
    (∀ k, 1 ≤ k → k ≤ 89342 →
      (((run_ppu (frame_start b) k).sprite_overflow = false ∧
        (run_ppu (frame_start b) (k - 1)).sprite_overflow = true)
        ↔ k = 89002)) ∧
    (run_ppu (frame_start b) 82182).nmi_signalled = b ∧
    (∀ k, k ≤ 89342 → k ≠ 82182 →
      (run_ppu (frame_start b) k).nmi_signalled = false) := by
  refine ⟨?_, ?_, ?_, ?_, ?_, ?_, ?_, ?_⟩
  · rw [run_ppu_closed b 82182 (by norm_num)]
    constructor <;> simp [timing_at]
  · rw [run_ppu_closed b 89002 (by norm_num)]
    constructor <;> simp [timing_at]
  · intro k h1 h2
    rw [run_ppu_closed b k h2, run_ppu_closed b (k - 1) (by omega)]
    simp only [timing_at]
    constructor
    · rintro ⟨ha, hb⟩
      split_ifs at ha hb
      all_goals omega
    · rintro rfl
      exact ⟨by decide, by decide⟩
  · intro k h1 h2
    rw [run_ppu_closed b k h2, run_ppu_closed b (k - 1) (by omega)]
    simp only [timing_at]
    constructor
    · rintro ⟨ha, hb⟩
      split_ifs at ha hb
      all_goals omega
    · rintro rfl
      exact ⟨by decide, by decide⟩
  · intro k h1 h2
    rw [run_ppu_closed b k h2, run_ppu_closed b (k - 1) (by omega)]
    simp only [timing_at]
    constructor
    · rintro ⟨ha, hb⟩
      split_ifs at ha hb
      all_goals omega
    · rintro rfl
      exact ⟨by decide, by decide⟩
  · intro k h1 h2
    rw [run_ppu_closed b k h2, run_ppu_closed b (k - 1) (by omega)]
    simp only [timing_at]
    constructor
    · rintro ⟨ha, hb⟩
      split_ifs at ha hb
      all_goals omega
    · rintro rfl
      exact ⟨by decide, by decide⟩
  · rw [run_ppu_closed b 82182 (by norm_num)]
    simp [timing_at]
  · intro k hk hne
    rw [run_ppu_closed b k hk]
    simp [timing_at, hne]

/-- Witness for C9: the vblank rising edge occurs at dot count 82182
(scanline 241, dot 1) with NMI enabled. -/
theorem claim_c9_frame_edges_witness :
    ((run_ppu (frame_start true) 82182).vblank_started = true ∧
      (run_ppu (frame_start true) (82182 - 1)).vblank_started = false)
      ↔ (82182 : Nat) = 82182 :=
  (claim_c9_frame_edges true).2.2.1 82182 (by norm_num) (by norm_num)

end NesPpu
